import Mathlib

/-!
Shallow embedding of `src/sync.rs` of the `afpacket` crate: Linux AF_PACKET
socket wrappers (`RawPacketStream`, `DgramPacketStream`) and the interface
name resolver `index_by_name`.

Syscalls are modelled by an oracle (`Kernel`) giving each call's result, and
every operation returns, next to its Rust return value, the list of syscalls
it issued, so that claims about "which syscalls happen" (close on drop,
no syscall on a too-long name, non-blocking recv flags, the sockaddr_ll
passed to sendto) are statements about that trace.

Machine integers are modelled as Nat/Int: byte values and u16/u32 fields as
Nat (with explicit `% 2 ^ w` where the Rust code performs a narrowing `as`
cast), C `int` return values of syscalls as Int (where `-1` signals failure).
-/

set_option autoImplicit false

namespace AF

/-- `libc::IFNAMSIZ` on Linux. -/
def IFNAMSIZ : Nat := 16

/-- `libc::O_NONBLOCK` on Linux. -/
def O_NONBLOCK : Int := 2048

/-- `libc::MSG_DONTWAIT` on Linux. -/
def MSG_DONTWAIT : Nat := 64

/-- `u16::to_be` : byte-swap of a 16-bit value (network byte order on a
little-endian host). -/
def toBe16 (p : Nat) : Nat := (p % 256) * 256 + (p / 256) % 256

/-- Rust `as i32` applied to a `u32` value: two's-complement reinterpretation. -/
def i32ofU32 (n : Nat) : Int :=
  if n % 2 ^ 32 < 2 ^ 31 then ((n % 2 ^ 32 : Nat) : Int)
  else ((n % 2 ^ 32 : Nat) : Int) - 2 ^ 32

/-- A `[u8; 8]` hardware-address array (the `dest` field and `sll_addr`). -/
structure Addr8 where
  a0 : Nat
  a1 : Nat
  a2 : Nat
  a3 : Nat
  a4 : Nat
  a5 : Nat
  a6 : Nat
  a7 : Nat
deriving DecidableEq

/-- The `sockaddr_ll` fields populated by `send_to` (the ones the code
writes; the rest stay zeroed). -/
structure SockaddrLL where
  halen : Nat
  addr : Addr8
  ifindex : Int
  protocol : Nat
deriving DecidableEq

/-- `std::io::Error` as the code produces it: either
`ErrorKind::InvalidInput.into()` or `Error::last_os_error()` (carrying the
kernel's errno). -/
inductive IoError where
  | invalidInput : IoError
  | os (errno : Nat) : IoError
deriving DecidableEq

/-- One issued syscall, recorded with the arguments the claims talk about. -/
inductive Syscall where
  | socket : Syscall
  | ifNametoindex (buf : List Nat) : Syscall
  | close (fd : Int) : Syscall
  | recv (len : Nat) (flags : Nat) : Syscall
  | fcntlGetfl : Syscall
  | fcntlSetfl (arg : Int) : Syscall
  | sendto (addr : SockaddrLL) (buf : List Nat) : Syscall
deriving DecidableEq

/-- Oracle for the results of the syscalls the embedded code issues. -/
structure Kernel where
  /-- result of `libc::if_nametoindex` on the given 16-byte buffer (a `c_uint`). -/
  nameToIndex : List Nat → Nat
  /-- the errno value `Error::last_os_error()` reads. -/
  lastOsError : Nat
  /-- result of `libc::socket`. -/
  socketRes : Int
  /-- result of `libc::fcntl(fd, F_GETFL)`. -/
  getflRes : Int
  /-- result of `libc::fcntl(fd, F_SETFL, arg)` for the given `arg`. -/
  setflRes : Int → Int
  /-- result of the k-th `libc::recv` issued by `drain`. -/
  recvRes : Nat → Int
  /-- result of `libc::sendto` for the given buffer. -/
  sendtoRes : List Nat → Int

/-- The 16-byte buffer `index_by_name` builds: `[0u8; IFNAMSIZ]` with
`buf[..name.len()]` overwritten by the name's bytes, i.e. the name followed
by zero padding. -/
def padName (name : List Nat) : List Nat :=
  name ++ List.replicate (IFNAMSIZ - name.length) 0

/-- `index_by_name`: reject names longer than `IFNAMSIZ` before any syscall;
otherwise query `if_nametoindex` on the zero-padded buffer; a zero result
becomes `Error::last_os_error()`, a nonzero result is returned `as i32`. -/
def indexByName (k : Kernel) (name : List Nat) :
    Except IoError Int × List Syscall :=
  if name.length > IFNAMSIZ then (Except.error IoError.invalidInput, [])
  else
    let idx := k.nameToIndex (padName name)
    if idx = 0 then
      (Except.error (IoError.os k.lastOsError), [Syscall.ifNametoindex (padName name)])
    else
      (Except.ok (i32ofU32 idx), [Syscall.ifNametoindex (padName name)])

/-- `type Filter = (u16, u8, u8, u32)`. -/
def Filter : Type := Nat × Nat × Nat × Nat

/-- `struct sock_filter { code: u16, jt: u8, jf: u8, k: u32 }`. -/
structure sock_filter where
  code : Nat
  jt : Nat
  jf : Nat
  k : Nat
deriving DecidableEq

/-- `struct sock_fprog { len: u16, filter: *const sock_filter }`; the pointer
is modelled by the pointed-to array itself. -/
structure sock_fprog where
  len : Nat
  filter : List sock_filter

/-- `impl From<Filter> for sock_filter`: fieldwise copy of the 4-tuple. -/
def sockFilterOfFilter (f : Filter) : sock_filter :=
  { code := f.1, jt := f.2.1, jf := f.2.2.1, k := f.2.2.2 }

/-- The `sock_fprog` built by `set_bpf_filter_internal`:
`filters = filter.into_iter().map(Into::into).collect()` and
`len = filters.len() as u16` (a `usize` → `u16` narrowing cast). -/
def setBpfFilterProgram (prog : List Filter) : sock_fprog :=
  let filters := prog.map sockFilterOfFilter
  { len := filters.length % 2 ^ 16, filter := filters }

/-- `pub struct RawPacketStream(RawFd)`. -/
structure RawPacketStream where
  fd : Int
deriving DecidableEq

/-- `impl Drop for RawPacketStream`: `libc::close(self.0)`. -/
def dropRawPacketStream (s : RawPacketStream) : List Syscall :=
  [Syscall.close s.fd]

/-- `impl IntoRawFd for RawPacketStream`: `fn into_raw_fd(self) -> RawFd { self.0 }`.
The method returns `self.0`, but because `RawPacketStream` implements `Drop`
and the body neither calls `mem::forget` nor destructures `self`, Rust drops
`self` when the method returns, running `Drop::drop` — so a
`close(self.0)` is issued as part of the call. -/
def intoRawFd (s : RawPacketStream) : Int × List Syscall :=
  (s.fd, dropRawPacketStream s)

/-- `impl FromRawFd for RawPacketStream`: wraps the adopted descriptor,
issuing no syscall. -/
def fromRawFd (fd : Int) : RawPacketStream :=
  { fd := fd }

/-- `#[derive(Clone)]` on `RawPacketStream(RawFd)`: `clone` copies the
`RawFd` field, so the clone holds the same descriptor. -/
def cloneRawPacketStream (s : RawPacketStream) : RawPacketStream :=
  { fd := s.fd }

/-- `drain_internal`, run with `fuel` as an upper bound on the number of
loop iterations: each iteration issues `recv(fd, buf, 1, MSG_DONTWAIT)`
(a single-byte non-blocking receive, `buf = [0u8; 1]`) and breaks as soon
as the result is `-1`. Returns the trace of issued receives on
termination within `fuel` steps, `none` if fuel runs out first. The k-th
iteration's recv result is `recv k`. -/
def drainFuel (recv : Nat → Int) : Nat → Option (List Syscall)
  | 0 => none
  | fuel + 1 =>
    if recv 0 = -1 then some [Syscall.recv 1 MSG_DONTWAIT]
    else
      match drainFuel (fun j => recv (j + 1)) fuel with
      | some tr => some (Syscall.recv 1 MSG_DONTWAIT :: tr)
      | none => none

/-- `set_non_blocking` (identical bodies on `RawPacketStream` and
`DgramPacketStream`): `res = fcntl(F_GETFL)`; if that did not fail,
`res = fcntl(F_SETFL, res | O_NONBLOCK)`; if the live `res` is `-1`,
return `Error::last_os_error()`, otherwise `Ok(())`. -/
def setNonBlocking (k : Kernel) : Except IoError Unit × List Syscall :=
  let res := k.getflRes
  if res = -1 then
    (Except.error (IoError.os k.lastOsError), [Syscall.fcntlGetfl])
  else
    let arg := Int.lor res O_NONBLOCK
    let res2 := k.setflRes arg
    if res2 = -1 then
      (Except.error (IoError.os k.lastOsError), [Syscall.fcntlGetfl, Syscall.fcntlSetfl arg])
    else
      (Except.ok (), [Syscall.fcntlGetfl, Syscall.fcntlSetfl arg])

/-- `pub struct DgramPacketStream { ifindex, dest, protocol_nbo, fd }`. -/
structure DgramPacketStream where
  ifindex : Int
  dest : Addr8
  protocol_nbo : Nat
  fd : Int
deriving DecidableEq

/-- `DgramPacketStream::new`: open the socket (fail with the OS error if it
returns `-1`), resolve `ifname`, store `dest` and `protocol.to_be()`. -/
def newDgramPacketStream (k : Kernel) (ifname : List Nat) (dest : Addr8)
    (protocol : Nat) : Except IoError DgramPacketStream × List Syscall :=
  if k.socketRes = -1 then (Except.error (IoError.os k.lastOsError), [Syscall.socket])
  else
    match indexByName k ifname with
    | (Except.error e, tr) => (Except.error e, Syscall.socket :: tr)
    | (Except.ok idx, tr) =>
      (Except.ok { ifindex := idx, dest := dest, protocol_nbo := toBe16 protocol,
                   fd := k.socketRes },
       Syscall.socket :: tr)

/-- `DgramPacketStream::set_ifname`: re-resolve and store the interface index. -/
def setIfname (k : Kernel) (s : DgramPacketStream) (ifname : List Nat) :
    Except IoError DgramPacketStream × List Syscall :=
  match indexByName k ifname with
  | (Except.error e, tr) => (Except.error e, tr)
  | (Except.ok idx, tr) => (Except.ok { s with ifindex := idx }, tr)

/-- `DgramPacketStream::set_dest`: store the new destination bytes. -/
def setDest (s : DgramPacketStream) (dest : Addr8) : DgramPacketStream :=
  { s with dest := dest }

/-- The `sockaddr_ll` populated by `send_to`:
`sll_halen = dest.len() as u8` (which is `8` since `dest : [u8; 8]`),
`sll_addr = dest` (the whole array copied), `sll_ifindex = ifindex`,
`sll_protocol = protocol_nbo`. -/
def sendToAddr (ifindex : Int) (dest : Addr8) (protocol_nbo : Nat) : SockaddrLL :=
  { halen := 8, addr := dest, ifindex := ifindex, protocol := protocol_nbo }

/-- `send_to(fd, ifindex, dest, protocol_nbo, buf)`: build the destination
`sockaddr_ll` and issue one `sendto`; `-1` becomes the OS error, otherwise
the byte count is returned. -/
def sendTo (k : Kernel) (ifindex : Int) (dest : Addr8) (protocol_nbo : Nat)
    (buf : List Nat) : Except IoError Nat × List Syscall :=
  let a := sendToAddr ifindex dest protocol_nbo
  let res := k.sendtoRes buf
  if res = -1 then (Except.error (IoError.os k.lastOsError), [Syscall.sendto a buf])
  else (Except.ok res.toNat, [Syscall.sendto a buf])

/-- `impl Write for DgramPacketStream`:
`send_to(self.fd, self.ifindex, self.dest, self.protocol_nbo, buf)`. -/
def writeDgram (k : Kernel) (s : DgramPacketStream) (buf : List Nat) :
    Except IoError Nat × List Syscall :=
  sendTo k s.ifindex s.dest s.protocol_nbo buf

/-- `DgramPacketStream` implements no `Drop`; its fields are plain integers
and a byte array, so Rust's default drop glue issues no syscall (in
particular, no `close(self.fd)`). -/
def dropDgramPacketStream (_ : DgramPacketStream) : List Syscall :=
  []

/-! Concrete kernel oracles used by the witness theorems. -/

/-- A kernel on which every syscall succeeds (`if_nametoindex` returns 7). -/
def kGood : Kernel :=
  { nameToIndex := fun _ => 7, lastOsError := 19, socketRes := 4,
    getflRes := 2, setflRes := fun _ => 0, recvRes := fun _ => 1,
    sendtoRes := fun _ => 0 }

/-- A kernel on which `if_nametoindex` returns 0 ("not found"). -/
def kZero : Kernel :=
  { kGood with nameToIndex := fun _ => 0 }

/-- A kernel on which `fcntl(F_GETFL)` fails. -/
def kBadGet : Kernel :=
  { kGood with getflRes := -1 }

/-- `i32ofU32` is the identity on values below `2 ^ 31`. -/
theorem i32ofU32_of_lt {n : Nat} (h : n < 2 ^ 31) : i32ofU32 n = (n : Int) := by
  have hm : n % 2 ^ 32 = n := Nat.mod_eq_of_lt (lt_trans h (by norm_num))
  unfold i32ofU32
  rw [hm, if_pos h]

/-- C1: `into_raw_fd` on `RawPacketStream(3)` returns 3 but also issues
`close(3)` (the `Drop` impl runs on `self` since the method does not
`mem::forget` it) — the extracted descriptor IS closed, contradicting the
claim's first half; adopting fd 5 via `from_raw_fd` and dropping the new
wrapper closes it exactly once, as the claim's second half states. -/
theorem c1_extraction_closes_fd :
    intoRawFd { fd := 3 } = (3, [Syscall.close 3]) ∧
    dropRawPacketStream (fromRawFd 5) = [Syscall.close 5] :=
  ⟨rfl, rfl⟩

/-- C2: dropping a `RawPacketStream` closes its descriptor, but dropping a
`DgramPacketStream` issues no syscall at all (there is no `Drop` impl), so
the dgram half of the claim fails on the code: the descriptor is leaked,
not released. -/
theorem c2_drop_syscalls :
    dropRawPacketStream { fd := 5 } = [Syscall.close 5] ∧
    dropDgramPacketStream
      { ifindex := 1, dest := ⟨0, 0, 0, 0, 0, 0, 0, 0⟩, protocol_nbo := 0, fd := 5 } = [] :=
  ⟨rfl, rfl⟩

/-- C9: `clone()` — which is neither extraction nor adoption — produces a
second live wrapper holding the same descriptor as the original, and
dropping both issues `close(3)` twice, contradicting single ownership. -/
theorem c9_clone_duplicates_descriptor :
    (cloneRawPacketStream { fd := 3 }).fd = (3 : Int) ∧
    dropRawPacketStream { fd := 3 } ++
        dropRawPacketStream (cloneRawPacketStream { fd := 3 }) =
      [Syscall.close 3, Syscall.close 3] :=
  ⟨rfl, rfl⟩

/-- C10: the `sockaddr_ll` built by `DgramPacketStream::write` always carries
`sll_halen = 8` (the full `[u8; 8]` capacity, regardless of the actual
hardware address length) and copies all 8 stored destination bytes. -/
theorem c10_halen_always_eight (k : Kernel) (s : DgramPacketStream) (buf : List Nat) :
    (writeDgram k s buf).2 =
      [Syscall.sendto
        { halen := 8, addr := s.dest, ifindex := s.ifindex,
          protocol := s.protocol_nbo } buf] := by
  simp only [writeDgram, sendTo, sendToAddr]
  split <;> rfl

/-- C3 counterexample: for the 65536-rule program the packaged instruction
count is `65536 % 2 ^ 16 = 0`, not the rule count 65536 — the `as u16`
cast truncates, so the claim as stated fails. -/
theorem c3_counterexample :
    (setBpfFilterProgram (List.replicate 65536 ((0, 0, 0, 0) : Filter))).len ≠
      (List.replicate 65536 ((0, 0, 0, 0) : Filter)).length := by
  simp only [setBpfFilterProgram, List.length_map, List.length_replicate]
  norm_num

/-- C3 (amended): the converted array has exactly N entries, the i-th entry
is the fieldwise copy (`From<Filter> for sock_filter`) of the i-th input
tuple, and the packaged instruction count is N reduced modulo `2 ^ 16`
(equal to N whenever N < 65536). -/
theorem c3_filter_conversion (prog : List Filter) :
    (setBpfFilterProgram prog).filter.length = prog.length ∧
    (∀ i : Nat, (setBpfFilterProgram prog).filter[i]? =
      (prog[i]?).map sockFilterOfFilter) ∧
    (setBpfFilterProgram prog).len = prog.length % 2 ^ 16 := by
  refine ⟨?_, ?_, ?_⟩
  · simp [setBpfFilterProgram]
  · intro i; simp [setBpfFilterProgram]
  · simp [setBpfFilterProgram]

/-- C4: a name longer than `IFNAMSIZ` makes `index_by_name` return
`ErrorKind::InvalidInput` with an empty syscall trace (no syscall issued);
a name within the capacity leads to exactly one `if_nametoindex` query on
the zero-padded 16-byte buffer. -/
theorem c4_index_by_name_length (k : Kernel) (name : List Nat) :
    (IFNAMSIZ < name.length →
        indexByName k name = (Except.error IoError.invalidInput, [])) ∧
    (name.length ≤ IFNAMSIZ →
        (indexByName k name).2 = [Syscall.ifNametoindex (padName name)]) := by
  constructor
  · intro h
    simp [indexByName, h]
  · intro h
    have h' : ¬ name.length > IFNAMSIZ := not_lt.mpr h
    simp only [indexByName, if_neg h']
    split <;> rfl

/-- C4 witness: a 17-byte name is rejected locally with no syscall; the
2-byte name `"hi"` leads to one query on its zero-padded buffer. -/
theorem c4_witness :
    indexByName kGood (List.replicate 17 97) = (Except.error IoError.invalidInput, []) ∧
    (indexByName kGood [104, 105]).2 = [Syscall.ifNametoindex (padName [104, 105])] :=
  ⟨(c4_index_by_name_length kGood (List.replicate 17 97)).1 (by decide),
   (c4_index_by_name_length kGood [104, 105]).2 (by decide)⟩

/-- C8: for a name within the capacity, a zero `if_nametoindex` result is
surfaced as `Error::last_os_error()` (an OS error, not a distinct
not-found kind); a nonzero result (in the positive `i32` range) is
returned as the index. -/
theorem c8_zero_is_os_error (k : Kernel) (name : List Nat)
    (h : name.length ≤ IFNAMSIZ) :
    (k.nameToIndex (padName name) = 0 →
        (indexByName k name).1 = Except.error (IoError.os k.lastOsError)) ∧
    (k.nameToIndex (padName name) ≠ 0 → k.nameToIndex (padName name) < 2 ^ 31 →
        (indexByName k name).1 = Except.ok ((k.nameToIndex (padName name) : Nat) : Int)) := by
  have h' : ¬ name.length > IFNAMSIZ := not_lt.mpr h
  constructor
  · intro hz
    simp [indexByName, h', hz]
  · intro hnz hlt
    simp [indexByName, h', hnz, i32ofU32_of_lt hlt]

/-- C8 witness: on `kZero` the query returns 0 and `index_by_name` surfaces
errno 19; on `kGood` it returns 7 and `index_by_name` returns 7. -/
theorem c8_witness :
    (indexByName kZero [104]).1 = Except.error (IoError.os 19) ∧
    (indexByName kGood [104]).1 = Except.ok (7 : Int) :=
  ⟨(c8_zero_is_os_error kZero [104] (by decide)).1 (by decide),
   (c8_zero_is_os_error kGood [104] (by decide)).2 (by decide) (by decide)⟩

/-- C7: `set_non_blocking` first reads the flags; if the read fails the
result is the OS error and no flag write is attempted (the trace is just
the `F_GETFL`); if the read succeeds, the write is attempted with the read
flags OR `O_NONBLOCK`, a failing write yields the OS error and a
succeeding write yields `Ok(())`. -/
theorem c7_set_non_blocking (k : Kernel) :
    (k.getflRes = -1 →
        setNonBlocking k =
          (Except.error (IoError.os k.lastOsError), [Syscall.fcntlGetfl])) ∧
    (k.getflRes ≠ -1 →
        (setNonBlocking k).2 =
          [Syscall.fcntlGetfl, Syscall.fcntlSetfl (Int.lor k.getflRes O_NONBLOCK)] ∧
        (k.setflRes (Int.lor k.getflRes O_NONBLOCK) = -1 →
            (setNonBlocking k).1 = Except.error (IoError.os k.lastOsError)) ∧
        (k.setflRes (Int.lor k.getflRes O_NONBLOCK) ≠ -1 →
            (setNonBlocking k).1 = Except.ok ())) := by
  constructor
  · intro h
    simp [setNonBlocking, h]
  · intro h
    refine ⟨?_, ?_, ?_⟩
    · simp only [setNonBlocking, if_neg h]
      split <;> rfl
    · intro h2
      simp [setNonBlocking, h, h2]
    · intro h2
      simp [setNonBlocking, h, h2]

/-- C7 witness: on `kBadGet` the flag read fails, the call errors with
errno 19 and the trace shows no flag write; on `kGood` the read gives 2,
the write of `2 | O_NONBLOCK` succeeds and the call returns `Ok(())`. -/
theorem c7_witness :
    setNonBlocking kBadGet =
      (Except.error (IoError.os 19), [Syscall.fcntlGetfl]) ∧
    (setNonBlocking kGood).1 = Except.ok () :=
  ⟨(c7_set_non_blocking kBadGet).1 (by decide),
   ((c7_set_non_blocking kGood).2 (by decide)).2.2 (by decide)⟩

/-- One unfolding step of the `drain` loop. -/
theorem drainFuel_succ (recv : Nat → Int) (fuel : Nat) :
    drainFuel recv (fuel + 1) =
      if recv 0 = -1 then some [Syscall.recv 1 MSG_DONTWAIT]
      else
        match drainFuel (fun j => recv (j + 1)) fuel with
        | some tr => some (Syscall.recv 1 MSG_DONTWAIT :: tr)
        | none => none :=
  rfl

/-- C6: if the n-th receive fails (`recv` returns -1, which includes a
would-block result under `MSG_DONTWAIT`), `drain` terminates within n+1
iterations, returns no error (its trace is produced, nothing else), and
every syscall it issued is a single-byte non-blocking receive. -/
theorem c6_drain_terminates (recv : Nat → Int) (n : Nat) (h : recv n = -1) :
    ∃ tr, drainFuel recv (n + 1) = some tr ∧
      ∀ c ∈ tr, c = Syscall.recv 1 MSG_DONTWAIT := by
  induction n generalizing recv with
  | zero =>
    refine ⟨[Syscall.recv 1 MSG_DONTWAIT], ?_, ?_⟩
    · simp [drainFuel, h]
    · intro c hc
      simpa using hc
  | succ n ih =>
    by_cases h0 : recv 0 = -1
    · refine ⟨[Syscall.recv 1 MSG_DONTWAIT], ?_, ?_⟩
      · simp [drainFuel, h0]
      · intro c hc
        simpa using hc
    · obtain ⟨tr, htr, hall⟩ := ih (fun j => recv (j + 1)) h
      refine ⟨Syscall.recv 1 MSG_DONTWAIT :: tr, ?_, ?_⟩
      · rw [drainFuel_succ, if_neg h0, htr]
      · intro c hc
        rcases List.mem_cons.mp hc with hc | hc
        · exact hc
        · exact hall c hc

/-- C6 witness: with receive results succeeding twice and failing on the
third call, `drain` terminates within 3 iterations issuing only
single-byte `MSG_DONTWAIT` receives. -/
theorem c6_witness :
    ∃ tr, drainFuel (fun j => if j = 2 then (-1 : Int) else 1) (2 + 1) = some tr ∧
      ∀ c ∈ tr, c = Syscall.recv 1 MSG_DONTWAIT :=
  c6_drain_terminates (fun j => if j = 2 then (-1 : Int) else 1) 2 (by decide)

/-- C5: after a successful `set_ifname` and a `set_dest`, the destination
address `write` passes to `sendto` carries the freshly resolved interface
index and the newly set destination bytes — not the constructor's original
arguments — and its protocol field is the stored network-byte-order
protocol (`protocol.to_be()` of the constructor's protocol). -/
theorem c5_write_uses_current_state
    (k0 k : Kernel) (ifn0 name : List Nat) (d0 d : Addr8) (p0 : Nat)
    (s s' : DgramPacketStream) (buf : List Nat)
    (h0 : (newDgramPacketStream k0 ifn0 d0 p0).1 = Except.ok s)
    (h1 : (setIfname k s name).1 = Except.ok s') :
    (writeDgram k (setDest s' d) buf).2 =
      [Syscall.sendto
        { halen := 8, addr := d,
          ifindex := i32ofU32 (k.nameToIndex (padName name)),
          protocol := toBe16 p0 } buf] := by
  have hproto : s.protocol_nbo = toBe16 p0 := by
    by_cases hs : k0.socketRes = -1
    · simp [newDgramPacketStream, hs] at h0
    · rcases hE : indexByName k0 ifn0 with ⟨r, tr⟩
      cases r with
      | error e => simp [newDgramPacketStream, hs, hE] at h0
      | ok idx =>
        simp only [newDgramPacketStream, if_neg hs, hE] at h0
        rw [Except.ok.injEq] at h0
        rw [← h0]
  by_cases hlen : name.length > IFNAMSIZ
  · simp [setIfname, indexByName, hlen] at h1
  · by_cases hz : k.nameToIndex (padName name) = 0
    · simp [setIfname, indexByName, hlen, hz] at h1
    · simp only [setIfname, indexByName, if_neg hlen, if_neg hz] at h1
      rw [Except.ok.injEq] at h1
      rw [← h1]
      simp only [writeDgram, sendTo, sendToAddr, setDest]
      split <;> rw [hproto]

/-- The constructor's destination bytes in the C5 witness. -/
def d0W : Addr8 := ⟨1, 1, 1, 1, 1, 1, 1, 1⟩

/-- The re-set destination bytes in the C5 witness. -/
def dW : Addr8 := ⟨2, 3, 4, 5, 6, 7, 8, 9⟩

/-- The stream the C5 witness constructs on `kGood`: index 7, the original
destination, `2048.to_be() = 8` as protocol, descriptor 4; `set_ifname` on
`kGood` resolves to 7 again, so it also equals the post-setter stream. -/
def sW : DgramPacketStream :=
  { ifindex := 7, dest := d0W, protocol_nbo := 8, fd := 4 }

/-- C5 witness: constructing on `kGood` with destination `d0W` and protocol
2048, then `set_ifname` and `set_dest dW`, makes `write` target the
resolved index, `dW` and the stored network-byte-order protocol. -/
theorem c5_witness :
    (writeDgram kGood (setDest sW dW) [9]).2 =
      [Syscall.sendto
        { halen := 8, addr := dW,
          ifindex := i32ofU32 (kGood.nameToIndex (padName [102])),
          protocol := toBe16 2048 } [9]] :=
  c5_write_uses_current_state kGood kGood [101] [102] d0W dW 2048 sW sW [9]
    (by rfl) (by rfl)

end AF
